import Mathlib

/-!
Verification development for `src/ragna/assistants/_google.py`: the Google
(Gemini) provider adapter of the ragna framework.  The Python module is
embedded shallowly below: pure formatting helpers become Lean functions,
and steps that can raise Python exceptions (name resolution of module-level
identifiers, dictionary lookups, negative indexing into an empty list)
return `Except PyErr`.

`Message` and `Source` come from `ragna.core`, which is not part of the
sources at hand; they are modelled from the spec's data model section:
`Message = {role, content, sources}` with a str-enum role, and
`Source = {content}`.  Subscript access `m["role"]` / `m["content"]` used by
the Python code is modelled as field access on those records.
-/

namespace RagnaGoogle

/-- Python exceptions that the embedded code can raise. -/
inductive PyErr where
  /-- Python `NameError`: an unbound bare identifier was referenced. -/
  | nameError (name : String)
  /-- Python `KeyError`: dictionary lookup with a missing key. -/
  | keyError (key : String)
  /-- Python `IndexError`: list index out of range (here: `messages[-1]` on `[]`). -/
  | indexError
deriving Repr, DecidableEq

/-- Modelled from the spec: `ragna.core.Source`, a retrieved context fragment
`{content: text}`.  The class itself lives outside the available sources. -/
structure Source where
  content : String
deriving Repr, DecidableEq

/-- Modelled from the spec: `ragna.core.Message`, an immutable record
`{role: enum{user, assistant, system}, content: text, sources: list of Source}`.
The role is a str-enum in the host framework, so it is modelled as a string;
values outside the three enum names are representable, which is what claim C7
exercises.  The Python code reads fields by subscript (`m["role"]`), modelled
here as field access. -/
structure Message where
  role : String
  content : String
  sources : List Source
deriving Repr, DecidableEq

/-- The argument of `_render_prompt` and `generate`:
`Union[str, list[Message]]`. -/
inductive Prompt where
  | str (s : String)
  | messages (msgs : List Message)
deriving Repr, DecidableEq

/-- The names bound in the module's global namespace once
`src/ragna/assistants/_google.py` has been executed: the two `typing`
imports, the two `ragna.core` imports, the two `_http_api` imports, and the
three classes defined in the file.  None of `_render_prompt`, `generate` or
`MessageRole` is among them (nor are they Python builtins). -/
def moduleGlobalNames : List String :=
  ["AsyncIterator", "Union", "Message", "Source",
   "HttpApiAssistant", "HttpStreamingProtocol",
   "GoogleAssistant", "GeminiPro", "GeminiUltra"]

/-- Resolution of a bare identifier at module scope: succeeds exactly on the
names the module binds, otherwise raises `NameError`. -/
def resolveModuleName (n : String) : Except PyErr Unit :=
  if n ∈ moduleGlobalNames then .ok () else .error (.nameError n)

/-- Per-instance configuration of the adapter: the API key (read by the
`HttpApiAssistant` base from `GOOGLE_API_KEY`) and the class-level `_MODEL`
identifier. -/
structure AssistantConfig where
  apiKey : String
  model : String
deriving Repr, DecidableEq

/-- Class attribute `GeminiPro._MODEL` (source line 107). -/
def GeminiPro_MODEL : String := "gemini-pro"

/-- Class attribute `GeminiUltra._MODEL` (source line 122). -/
def GeminiUltra_MODEL : String := "gemini-ultra"

/-- Method `GoogleAssistant.display_name`: `f"Google/{cls._MODEL}"`. -/
def display_name (model : String) : String := "Google/" ++ model

/-- Python's `sep.join(parts)`: empty string on `[]`, otherwise the parts
interleaved with `sep`. -/
def pyJoin (sep : String) : List String → String
  | [] => ""
  | [s] => s
  | s :: rest => s ++ sep ++ pyJoin sep rest

/-- Method `GoogleAssistant._instructize_prompt`: `"\n".join` of the two fixed
preamble lines, the `f"Prompt: {prompt}"` line, and one `f"\n{source.content}"`
entry per source, in source order. -/
def _instructize_prompt (prompt : String) (sources : List Source) : String :=
  pyJoin "\n"
    (["Answer the prompt using only the pieces of context below.",
      "If you don\x27t know the answer, just say so. Don\x27t try to make up additional context.",
      "Prompt: " ++ prompt]
     ++ sources.map (fun source => "\n" ++ source.content))

/-- The fixed preamble of `_instructize_prompt`, up to and including the
`"Prompt: "` prefix of the prompt line. -/
def instructizePreamble : String :=
  "Answer the prompt using only the pieces of context below.\nIf you don\x27t know the answer, just say so. Don\x27t try to make up additional context.\nPrompt: "

/-- The trailing block contributed by the sources: each source's content
prefixed by a blank line (the `"\n"` join separator plus the explicit `"\n"`
in `f"\n{source.content}"`), concatenated in source order. -/
def sourcesBlock (sources : List Source) : String :=
  String.join (sources.map (fun source => "\n\n" ++ source.content))

/-- One `{"text": ...}` element of a rendered message's `parts`. -/
structure Part where
  text : String
deriving Repr, DecidableEq

/-- One element of the rendered `contents` list:
`{"parts": [{"text": ...}], "role": ...}`. -/
structure RenderedMessage where
  parts : List Part
  role : String
deriving Repr, DecidableEq

/-- The `role_mapping` dictionary of `_render_prompt`:
`{"user": "user", "assistant": "model"}`. -/
def role_mapping : List (String × String) := [("user", "user"), ("assistant", "model")]

/-- Python dictionary subscript `d[k]`: the value when the key is present,
`KeyError` otherwise. -/
def dictGet (d : List (String × String)) (k : String) : Except PyErr String :=
  match d.find? (fun p => p.1 == k) with
  | some p => .ok p.2
  | none => .error (.keyError k)

/-- The list comprehension inside `_render_prompt`: drop messages whose role
is `"system"`, and turn each remaining message into
`{"parts": [{"text": m.content}], "role": role_mapping[m.role]}`, in input
order.  A role absent from `role_mapping` raises `KeyError` at the first
offending message. -/
def renderMessages : List Message → Except PyErr (List RenderedMessage)
  | [] => .ok []
  | m :: rest =>
    if m.role == "system" then renderMessages rest
    else do
      let mapped ← dictGet role_mapping m.role
      let tail ← renderMessages rest
      pure ({ parts := [{ text := m.content }], role := mapped } :: tail)

/-- Method `GoogleAssistant._render_prompt`.  On a bare string the source builds
`[Message(content=prompt, role=MessageRole.USER)]`; `MessageRole` is never
imported by this module, so that bare-name reference is resolved (and fails)
before the `Message` constructor runs.  Had it resolved, `MessageRole.USER`
is the str-enum value `"user"`, so the continuation is included after the
resolution step. -/
def _render_prompt : Prompt → Except PyErr (List RenderedMessage)
  | .str s => do
    let _ ← resolveModuleName "MessageRole"
    renderMessages [{ role := "user", content := s, sources := [] }]
  | .messages msgs => renderMessages msgs

/-- One `{"category": ..., "threshold": ...}` entry of `safetySettings`. -/
structure SafetySetting where
  category : String
  threshold : String
deriving Repr, DecidableEq

/-- The `generationConfig` object of the request body.  `temperature` is the
exact decimal literal `0.0`, modelled as a rational. -/
structure GenerationConfig where
  temperature : ℚ
  maxOutputTokens : Nat
deriving Repr, DecidableEq

/-- The JSON request body passed to `self._call_api` by `generate`:
`contents`, `safetySettings` (one entry per category in the fixed four-element
list, each with threshold `"BLOCK_NONE"`), and `generationConfig`. -/
structure RequestBody where
  contents : List RenderedMessage
  safetySettings : List SafetySetting
  generationConfig : GenerationConfig
deriving Repr, DecidableEq

/-- Everything `generate` hands to the streaming collaborator
`self._call_api`: HTTP method, URL, query params, headers, JSON body, and the
`parse_kwargs` extraction path for incremental text values. -/
structure ApiCall where
  method : String
  url : String
  params : List (String × String)
  headers : List (String × String)
  body : RequestBody
  parseItem : String
deriving Repr, DecidableEq

/-- The `self._call_api(...)` argument block of `generate` (source lines
56–82), parameterised over the rendered `contents` (whose computation is the
subject of claim C9). -/
def generateCall (cfg : AssistantConfig) (contents : List RenderedMessage)
    (maxNewTokens : Nat) : ApiCall :=
  { method := "POST"
    url := "https://generativelanguage.googleapis.com/v1beta/models/"
            ++ cfg.model ++ ":streamGenerateContent"
    params := [("key", cfg.apiKey)]
    headers := [("Content-Type", "application/json")]
    body :=
      { contents := contents
        safetySettings :=
          ["HARASSMENT", "HATE_SPEECH", "SEXUALLY_EXPLICIT", "DANGEROUS_CONTENT"].map
            (fun category =>
              { category := "HARM_CATEGORY_" ++ category, threshold := "BLOCK_NONE" })
        generationConfig :=
          { temperature := 0, maxOutputTokens := maxNewTokens } }
    parseItem := "item.candidates.item.content.parts.item.text" }

/-- Method `GoogleAssistant.generate`, up to the point where the call is handed to
the collaborator.  The body references the bare name `_render_prompt`, which
the module does not bind, so consuming the returned sequence raises
`NameError` while the `json=` argument is being built — before `_call_api`
(and hence any HTTP request) happens.  Had the name resolved to the method,
the rendered contents would feed `generateCall`. -/
def generate (cfg : AssistantConfig) (prompt : Prompt)
    (maxNewTokens : Nat := 256) : Except PyErr ApiCall := do
  let _ ← resolveModuleName "_render_prompt"
  let contents ← _render_prompt prompt
  pure (generateCall cfg contents maxNewTokens)

/-- The unawaited coroutine / async-generator object produced by a call
`generate(prompt=..., max_new_tokens=...)` whose result is never iterated:
`answer` yields this object itself as a single element. -/
structure GenCoroutine where
  prompt : String
  maxNewTokens : Nat
deriving Repr, DecidableEq

/-- Method `GoogleAssistant.answer`, modelling what consuming its async generator
does: `messages[-1]` (IndexError on an empty list), then
`_instructize_prompt` on that message's content and sources, then a single
`yield generate(...)` whose bare name `generate` is again an unbound
module-level reference.  Had it resolved, the yielded value would be the
coroutine object itself, not its fragments. -/
def answer (messages : List Message)
    (maxNewTokens : Nat := 256) : Except PyErr (List GenCoroutine) := do
  let message ← match messages.getLast? with
    | some m => Except.ok m
    | none => Except.error PyErr.indexError
  let expanded := _instructize_prompt message.content message.sources
  let _ ← resolveModuleName "generate"
  pure [{ prompt := expanded, maxNewTokens := maxNewTokens }]

/-- The shape claimed for a rendered entry: the message's content as the sole
text part, and the role mapped by `user → "user"`, `assistant → "model"`. -/
def expectedRender (m : Message) : RenderedMessage :=
  { parts := [{ text := m.content }]
    role := if m.role == "user" then "user" else "model" }

example : _instructize_prompt "Q?" [⟨"Doc A"⟩, ⟨"Doc B"⟩]
    = "Answer the prompt using only the pieces of context below.\nIf you don\x27t know the answer, just say so. Don\x27t try to make up additional context.\nPrompt: Q?\n\nDoc A\n\nDoc B" := by
  rfl

example : _instructize_prompt "Q?" []
    = instructizePreamble ++ "Q?" ++ sourcesBlock [] := by
  rfl

example : _render_prompt (.messages [⟨"user", "hi", []⟩, ⟨"assistant", "yo", []⟩])
    = .ok [⟨[⟨"hi"⟩], "user"⟩, ⟨[⟨"yo"⟩], "model"⟩] := by rfl

example : _render_prompt (.str "hi") = .error (.nameError "MessageRole") := by rfl

example : generate ⟨"k", "gemini-pro"⟩ (.str "hi")
    = .error (.nameError "_render_prompt") := by rfl

example : answer [⟨"user", "hi", []⟩] = .error (.nameError "generate") := by rfl

example : answer [] = .error .indexError := by rfl

theorem pyJoin_cons_cons (sep a b : String) (l : List String) :
    pyJoin sep (a :: b :: l) = a ++ sep ++ pyJoin sep (b :: l) := rfl

theorem pyJoin_sources :
    ∀ (c : String) (ss : List Source),
      pyJoin "\n" (c :: ss.map (fun source => "\n" ++ source.content))
        = c ++ sourcesBlock ss
  | c, [] => by
      simp [pyJoin, sourcesBlock, String.join, String.append_empty]
  | c, s :: ss => by
      rw [List.map_cons, pyJoin_cons_cons, pyJoin_sources ("\n" ++ s.content) ss]
      apply String.ext
      simp [sourcesBlock, String.data_append]

theorem renderMessages_ok :
    ∀ msgs : List Message,
      (∀ m ∈ msgs, m.role = "user" ∨ m.role = "assistant" ∨ m.role = "system") →
      renderMessages msgs
        = .ok ((msgs.filter (fun m => m.role != "system")).map expectedRender)
  | [], _ => rfl
  | m :: rest, h => by
      have hrest := renderMessages_ok rest (fun x hx => h x (List.mem_cons_of_mem m hx))
      rcases h m (List.mem_cons_self m rest) with hm | hm | hm <;>
        simp [renderMessages, dictGet, role_mapping, hm, hrest, expectedRender,
          List.filter] <;> rfl

theorem renderMessages_bad_role :
    ∀ msgs : List Message,
      (∃ m ∈ msgs, m.role ≠ "user" ∧ m.role ≠ "assistant" ∧ m.role ≠ "system") →
      ∃ r, renderMessages msgs = .error (.keyError r)
        ∧ r ≠ "user" ∧ r ≠ "assistant" ∧ r ≠ "system"
  | [], h => absurd h (by simp)
  | m :: rest, h => by
      by_cases hu : m.role = "user"
      · have hbad : ∃ x ∈ rest, x.role ≠ "user" ∧ x.role ≠ "assistant" ∧ x.role ≠ "system" := by
          rcases h with ⟨x, hx, hxr⟩
          rcases List.mem_cons.mp hx with rfl | hx
          · exact absurd hu hxr.1
          · exact ⟨x, hx, hxr⟩
        obtain ⟨r, hr, hr1, hr2, hr3⟩ := renderMessages_bad_role rest hbad
        refine ⟨r, ?_, hr1, hr2, hr3⟩
        simp [renderMessages, dictGet, role_mapping, hu, hr]
        rfl
      · by_cases ha : m.role = "assistant"
        · have hbad : ∃ x ∈ rest, x.role ≠ "user" ∧ x.role ≠ "assistant" ∧ x.role ≠ "system" := by
            rcases h with ⟨x, hx, hxr⟩
            rcases List.mem_cons.mp hx with rfl | hx
            · exact absurd ha hxr.2.1
            · exact ⟨x, hx, hxr⟩
          obtain ⟨r, hr, hr1, hr2, hr3⟩ := renderMessages_bad_role rest hbad
          refine ⟨r, ?_, hr1, hr2, hr3⟩
          simp [renderMessages, dictGet, role_mapping, ha, hr]
          rfl
        · by_cases hs : m.role = "system"
          · have hbad : ∃ x ∈ rest, x.role ≠ "user" ∧ x.role ≠ "assistant" ∧ x.role ≠ "system" := by
              rcases h with ⟨x, hx, hxr⟩
              rcases List.mem_cons.mp hx with rfl | hx
              · exact absurd hs hxr.2.2
              · exact ⟨x, hx, hxr⟩
            obtain ⟨r, hr, hr1, hr2, hr3⟩ := renderMessages_bad_role rest hbad
            refine ⟨r, ?_, hr1, hr2, hr3⟩
            simp [renderMessages, hs, hr]
          · refine ⟨m.role, ?_, hu, ha, hs⟩
            have hu' : (("user" : String) == m.role) = false :=
              beq_eq_false_iff_ne.mpr (fun e => hu e.symm)
            have ha' : (("assistant" : String) == m.role) = false :=
              beq_eq_false_iff_ne.mpr (fun e => ha e.symm)
            simp [renderMessages, dictGet, role_mapping, hs, List.find?, hu', ha']
            rfl

theorem instructize_eq (prompt : String) (sources : List Source) :
    _instructize_prompt prompt sources
      = instructizePreamble ++ prompt ++ sourcesBlock sources := by
  show pyJoin "\n"
      ("Answer the prompt using only the pieces of context below."
        :: "If you don\x27t know the answer, just say so. Don\x27t try to make up additional context."
        :: ("Prompt: " ++ prompt)
        :: sources.map (fun source => "\n" ++ source.content))
    = instructizePreamble ++ prompt ++ sourcesBlock sources
  rw [pyJoin_cons_cons, pyJoin_cons_cons, pyJoin_sources,
    show instructizePreamble
        = "Answer the prompt using only the pieces of context below." ++ "\n"
          ++ "If you don\x27t know the answer, just say so. Don\x27t try to make up additional context."
          ++ "\n" ++ "Prompt: " from rfl]
  simp [String.append_assoc]
  rfl

/-- Claim C5: for every prompt and every (possibly empty) list of sources,
`_instructize_prompt` is the fixed preamble, then the line `Prompt: <prompt>`,
then each source's content in source order (each on its own paragraph,
separated by a blank line); with no sources the output is still the preamble
plus the prompt line. -/
theorem instructize_prompt_prompt_then_sources (prompt : String) (sources : List Source) :
    _instructize_prompt prompt sources
        = instructizePreamble ++ prompt ++ sourcesBlock sources
    ∧ _instructize_prompt prompt [] = instructizePreamble ++ prompt := by
  refine ⟨instructize_eq prompt sources, ?_⟩
  rw [instructize_eq prompt []]
  exact String.append_empty _

/-- Claim C2: on a non-empty list of messages whose roles all lie in the
role enum, `_render_prompt` keeps input order, drops exactly the
`system`-role messages, and renders each survivor as
`{parts := [{text := content}], role := user ↦ "user" / assistant ↦ "model"}`;
when no message has role `system`, the output has the same length as the
input, entry for entry. -/
theorem render_prompt_messages_spec (msgs : List Message)
    (_hne : msgs ≠ [])
    (hroles : ∀ m ∈ msgs, m.role = "user" ∨ m.role = "assistant" ∨ m.role = "system") :
    _render_prompt (.messages msgs)
      = .ok ((msgs.filter (fun m => m.role != "system")).map expectedRender)
    ∧ ((∀ m ∈ msgs, m.role ≠ "system") →
        _render_prompt (.messages msgs) = .ok (msgs.map expectedRender)
        ∧ (msgs.map expectedRender).length = msgs.length) := by
  refine ⟨renderMessages_ok msgs hroles, fun hnosys => ⟨?_, by simp⟩⟩
  have hfilter : msgs.filter (fun m => m.role != "system") = msgs := by
    rw [List.filter_eq_self]
    intro m hm
    simp [hnosys m hm]
  have h := renderMessages_ok msgs hroles
  rw [hfilter] at h
  exact h

/-- Witness for C2: a concrete user/assistant exchange renders to the two
expected entries in order. -/
theorem render_prompt_messages_spec_witness :
    _render_prompt (.messages [⟨"user", "hi", []⟩, ⟨"assistant", "there", []⟩])
      = .ok [⟨[⟨"hi"⟩], "user"⟩, ⟨[⟨"there"⟩], "model"⟩] := by
  have h := render_prompt_messages_spec
    [⟨"user", "hi", []⟩, ⟨"assistant", "there", []⟩] (by simp) (by simp)
  simpa [expectedRender] using h.1

/-- Claim C7: a message list containing a non-system message whose role is
outside the enum makes `_render_prompt` fail with a `KeyError` naming an
unmapped role (the `role_mapping` dictionary lookup), rather than producing a
miscategorised entry. -/
theorem render_prompt_unknown_role (msgs : List Message)
    (h : ∃ m ∈ msgs, m.role ≠ "user" ∧ m.role ≠ "assistant" ∧ m.role ≠ "system") :
    ∃ r, _render_prompt (.messages msgs) = .error (.keyError r)
      ∧ r ≠ "user" ∧ r ≠ "assistant" ∧ r ≠ "system" :=
  renderMessages_bad_role msgs h

/-- Witness for C7: a single message with role `"tool"` fails with a
`KeyError` on an unmapped role. -/
theorem render_prompt_unknown_role_witness :
    ∃ r, _render_prompt (.messages [⟨"tool", "x", []⟩]) = .error (.keyError r)
      ∧ r ≠ "user" ∧ r ≠ "assistant" ∧ r ≠ "system" :=
  render_prompt_unknown_role [⟨"tool", "x", []⟩]
    ⟨⟨"tool", "x", []⟩, by simp, by decide, by decide, by decide⟩

/-- Claim C3: for every rendered contents and every `max_new_tokens`, the
request body of `generate` has `generationConfig.temperature = 0.0`,
`generationConfig.maxOutputTokens = max_new_tokens` (whose default in the
`generate` signature is 256), and exactly the four `safetySettings` entries
for HARASSMENT, HATE_SPEECH, SEXUALLY_EXPLICIT and DANGEROUS_CONTENT, each
with threshold `"BLOCK_NONE"`. -/
theorem generate_body_config_and_safety (cfg : AssistantConfig)
    (contents : List RenderedMessage) (maxNewTokens : Nat) :
    (generateCall cfg contents maxNewTokens).body.generationConfig
        = { temperature := 0, maxOutputTokens := maxNewTokens }
    ∧ (generateCall cfg contents maxNewTokens).body.safetySettings
        = [{ category := "HARM_CATEGORY_HARASSMENT", threshold := "BLOCK_NONE" },
           { category := "HARM_CATEGORY_HATE_SPEECH", threshold := "BLOCK_NONE" },
           { category := "HARM_CATEGORY_SEXUALLY_EXPLICIT", threshold := "BLOCK_NONE" },
           { category := "HARM_CATEGORY_DANGEROUS_CONTENT", threshold := "BLOCK_NONE" }]
    ∧ (generateCall cfg contents maxNewTokens).body.safetySettings.length = 4 :=
  ⟨rfl, rfl, rfl⟩

/-- Claim C6: `generate` addresses
`POST https://generativelanguage.googleapis.com/v1beta/models/<model>:streamGenerateContent`,
passes the API key as the query parameter `key`, sends a JSON content-type
header, and asks the streaming collaborator to extract the text fragments at
`candidates[].content.parts[].text` (written in the collaborator's ijson path
syntax, where `item` denotes an array element). -/
theorem generate_call_wire_contract (cfg : AssistantConfig)
    (contents : List RenderedMessage) (maxNewTokens : Nat) :
    (generateCall cfg contents maxNewTokens).method = "POST"
    ∧ (generateCall cfg contents maxNewTokens).url
        = "https://generativelanguage.googleapis.com/v1beta/models/"
          ++ cfg.model ++ ":streamGenerateContent"
    ∧ (generateCall cfg contents maxNewTokens).params = [("key", cfg.apiKey)]
    ∧ (generateCall cfg contents maxNewTokens).headers
        = [("Content-Type", "application/json")]
    ∧ (generateCall cfg contents maxNewTokens).parseItem
        = "item.candidates.item.content.parts.item.text" :=
  ⟨rfl, rfl, rfl, rfl, rfl⟩

/-- Claim C8: `display_name` is `"Google/"` followed by the configured model
identifier, giving exactly `"Google/gemini-pro"` for `GeminiPro` and
`"Google/gemini-ultra"` for `GeminiUltra`. -/
theorem display_name_variants :
    display_name GeminiPro_MODEL = "Google/gemini-pro"
    ∧ display_name GeminiUltra_MODEL = "Google/gemini-ultra" :=
  ⟨rfl, rfl⟩

/-- Claim C9: for every input and every `max_new_tokens`, consuming the
sequence returned by `generate` fails with a `NameError` on the bare name
`_render_prompt` (defined only as a method, not at module level) while the
request body is being constructed, before any HTTP request is issued — the
model returns the error without ever forming an `ApiCall`. -/
theorem generate_unresolved_render_prompt (cfg : AssistantConfig)
    (prompt : Prompt) (maxNewTokens : Nat) :
    generate cfg prompt maxNewTokens = .error (.nameError "_render_prompt") :=
  rfl

/-- Claim C10: for an empty message list, `answer` fails with an `IndexError`
at `messages[-1]`, before `_instructize_prompt` or `generate` enters the
picture — in the model the error is produced by the very first step of
`answer`. -/
theorem answer_empty_messages (maxNewTokens : Nat) :
    answer [] maxNewTokens = .error .indexError :=
  rfl

/-- Claim C4 evidence (code bug): on every bare string, `_render_prompt`
raises a `NameError` on the unimported `MessageRole` instead of returning the
single rendered user entry the spec intends. -/
theorem render_prompt_str_raises (s : String) :
    _render_prompt (.str s) = .error (.nameError "MessageRole") :=
  rfl

/-- Claim C1 evidence (code bug): on a concrete single-message conversation,
consuming `answer` raises a `NameError` on the bare name `generate` (a method
referenced as a module-level function); even with that name resolved, the
body would yield the coroutine object itself as one element rather than the
text fragments. -/
theorem answer_single_message_raises :
    answer [{ role := "user", content := "What is 2+2?", sources := [] }] 256
      = .error (.nameError "generate") :=
  rfl

end RagnaGoogle
